import Mathlib

/-!
Verification of the kiosk control script (`kiosk_control.py`).

The script drives a kiosk browser: a time-window evaluator (`is_on_hours`)
decides ON/OFF, a process supervisor (`kill_browser` / `launch_browser`)
manages the single Chromium tree, and the main loop (`main_loop`, modelled
here tick-by-tick as `tick`) reads the config, reconciles mode/config
changes and rotates tabs.

Modelling conventions:
* A time of day is a `Nat`, seconds since midnight (Python `datetime.time`
  values compare in this order).
* `parseTime` models `datetime.strptime(s, "%H:%M").time()`: one or two
  digits for the hour (0..23), a literal colon, one or two digits for the
  minute (0..59), nothing left over; any other string raises, which the
  model renders as `none`.
* The wall clock, config-file contents and process deaths are external
  inputs: `tick` takes `now`, a `ReadResult` and the supervisor state as
  parameters.
* Side effects (sleeps, spawns, xdotool key presses, log lines) are
  recorded as a list of `Act`s emitted by each tick.
-/

/-- Accepts one or two leading decimal digits (the greedy behaviour of a
`strptime` numeric directive), returning their value and the remaining
characters; `none` when the input does not start with a digit. -/
def takeDigits2 : List Char → Option (Nat × List Char)
  | [] => none
  | c1 :: rest =>
    if c1.isDigit then
      match rest with
      | c2 :: rest2 =>
        if c2.isDigit then
          some ((c1.toNat - '0'.toNat) * 10 + (c2.toNat - '0'.toNat), rest2)
        else
          some (c1.toNat - '0'.toNat, rest)
      | [] => some (c1.toNat - '0'.toNat, [])
    else none

/-- Model of `datetime.strptime(s, "%H:%M").time()`, as seconds since
midnight; `none` models the `ValueError` raised on unparseable input. -/
def parseTime (s : String) : Option Nat :=
  match takeDigits2 s.toList with
  | none => none
  | some (h, rest) =>
    if h ≤ 23 then
      match rest with
      | ':' :: rest2 =>
        match takeDigits2 rest2 with
        | none => none
        | some (m, rest3) =>
          if m ≤ 59 ∧ rest3 = [] then some (h * 3600 + m * 60) else none
      | _ => none
    else none

/-- Model of `is_on_hours(start_str, end_str)` from `kiosk_control.py`.
The Python function reads the clock itself; the model takes `now` as a
parameter.  A parse failure is caught inside the function and yields
`False` ("default to off-hours"). -/
def is_on_hours (now : Nat) (start_str end_str : String) : Bool :=
  match parseTime start_str, parseTime end_str with
  | some start, some e =>
    if start ≤ e then
      decide (start ≤ now ∧ now < e)
    else
      decide (now ≥ start ∨ now < e)
  | _, _ => false

/-- One entry of `on_urls`: a JSON object with a `url` field and an
optional `duration` field (`entry.get("duration", 15)` supplies the
default).  The optional `notes` field never reaches the control script's
logic and is omitted. -/
structure TabEntry where
  url : String
  duration : Option Nat
  deriving Repr, DecidableEq

/-- The config record (schema of `config.json`).  The two keys the loop's
validity check inspects, `on_urls` and `off_hours_url`, are falsy in
Python exactly when the list is empty / the string is empty, so a missing
or falsy key is modelled by the empty value. -/
structure Config where
  on_urls : List TabEntry
  off_hours_url : String
  on_hours_start : String
  on_hours_end : String
  deriving Repr, DecidableEq

/-- The default config `read_config` substitutes when `config.json` is
absent. -/
def defaultConfig : Config :=
  { on_urls := [⟨"https://google.com", some 15⟩]
    off_hours_url := "https://duckduckgo.com"
    on_hours_start := "08:00"
    on_hours_end := "18:00" }

/-- The empty dict `{}` that `read_config` returns when reading or parsing
the file fails: every key the loop checks is missing, hence falsy. -/
def emptyConfig : Config :=
  { on_urls := [], off_hours_url := "", on_hours_start := "", on_hours_end := "" }

/-- The three outcomes of attempting to read `config.json`: the file is
absent, it exists but cannot be read/parsed, or it parses to a config. -/
inductive ReadResult
  | missing
  | unreadable
  | ok (c : Config)
  deriving Repr, DecidableEq

/-- Model of `read_config()`: absent file yields the built-in default,
a read/parse error yields `{}`, otherwise the parsed record. -/
def read_config : ReadResult → Config
  | .missing => defaultConfig
  | .unreadable => emptyConfig
  | .ok c => c

/-- State of the display-process supervisor.  `tracked` is the
`browser_process` global (`none` models Python `None`); `live` lists the
pids of the Chromium process trees currently alive, in spawn order;
`next` is a fresh-pid supply. -/
structure SupState where
  tracked : Option Nat
  live : List Nat
  next : Nat
  deriving Repr, DecidableEq

/-- Supervisor state at script start: no tracked process, nothing alive. -/
def initSup : SupState := { tracked := none, live := [], next := 0 }

/-- `browser_process is None or browser_process.poll() is not None`
negated: the tracked process exists and has not exited. -/
def browserAlive (s : SupState) : Bool :=
  match s.tracked with
  | none => false
  | some p => s.live.contains p

/-- Model of `kill_browser()`: terminates the tracked tree (children first,
then parent, kill on timeout), sets `browser_process = None`, then sweeps
and kills every process whose name contains "chromium" — i.e. every live
tree in this model.  It therefore always leaves no tracked process and no
live tree. -/
def kill_browser (s : SupState) : SupState :=
  { tracked := none, live := [], next := s.next }

/-- Observable side effects of one pass of the control code: log lines,
tracked-tree termination, a Chromium spawn, a blocking sleep (seconds) and
xdotool key signals.  `reload` and `dismissPopup` are the maintenance
signals the design talks about; the script can emit them only if some
branch actually does. -/
inductive Act
  | log (msg : String)
  | kill
  | spawn (urls : List String)
  | sleep (seconds : Nat)
  | focusTab (n : Nat)
  | reload
  | dismissPopup
  deriving Repr, DecidableEq

/-- Model of `launch_browser(urls_to_open)`: bails out (log only) on an
empty list, otherwise spawns one fresh Chromium tree with all URLs,
records it as tracked, sleeps 10 s for the tabs to load and focuses tab 1
(Ctrl+1).  It does NOT terminate anything first. -/
def launch_browser (urls_to_open : List String) (s : SupState) :
    SupState × List Act :=
  if urls_to_open = [] then
    (s, [.log "No URLs provided to launch."])
  else
    ({ tracked := some s.next, live := s.live ++ [s.next], next := s.next + 1 },
     [.log "Launching Chromium.", .spawn urls_to_open, .sleep 10, .focusTab 1])

/-- The loop-local state of `main_loop`: `last_mode`/`last_config` start as
`None`, `current_url_list`/`current_tab_index` are the rotation globals. -/
inductive Mode
  | ON
  | OFF
  deriving Repr, DecidableEq

structure LoopState where
  last_mode : Option Mode
  last_config : Option Config
  current_url_list : List TabEntry
  current_tab_index : Nat
  deriving Repr, DecidableEq

/-- Loop state at entry to `main_loop`. -/
def initLoop : LoopState :=
  { last_mode := none, last_config := none
    current_url_list := [], current_tab_index := 0 }

/-- One iteration of the `while True` body of `main_loop`, as a function of
the loop state, the supervisor state, the config-read outcome and the
current time of day.  Returns the new states plus the actions performed.
The only statement in the body that can raise with this data model is the
list indexing `current_url_list[current_tab_index]`; its `IndexError`
is routed through the outer `except` handler (kill, `last_mode = None`,
sleep 15) exactly as the Python does. -/
def tick (st : LoopState) (sup : SupState) (r : ReadResult) (now : Nat) :
    LoopState × SupState × List Act :=
  let config := read_config r
  if config.on_urls = [] ∨ config.off_hours_url = "" then
    (st, sup, [.log "Config is invalid or missing keys. Retrying in 30s.", .sleep 30])
  else
    let ison := is_on_hours now config.on_hours_start config.on_hours_end
    let current_mode := if ison then Mode.ON else Mode.OFF
    if some current_mode ≠ st.last_mode ∨ some config ≠ st.last_config then
      let supK := kill_browser sup
      let newList : List TabEntry :=
        if ison then config.on_urls else [⟨config.off_hours_url, some 3600⟩]
      let urls_to_launch : List String :=
        if ison then config.on_urls.map TabEntry.url else [config.off_hours_url]
      let res :=
        if urls_to_launch = [] then
          (supK, [Act.log "No URLs to launch for current mode."])
        else
          launch_browser urls_to_launch supK
      ({ last_mode := some current_mode, last_config := some config,
         current_url_list := newList, current_tab_index := 0 },
       res.1,
       .log "Mode change detected." :: .kill :: res.2)
    else
      if ison ∧ st.current_url_list ≠ [] then
        if ¬ browserAlive sup then
          ({ st with last_mode := none }, sup,
           [.log "Browser process not running. Forcing restart.", .sleep 5])
        else
          match st.current_url_list.get? st.current_tab_index with
          | none =>
            ({ st with last_mode := none }, kill_browser sup,
             [.log "Unhandled error in main loop. Restarting loop in 15s.",
              .kill, .sleep 15])
          | some entry =>
            let duration := entry.duration.getD 15
            let newIdx := (st.current_tab_index + 1) % st.current_url_list.length
            ({ st with current_tab_index := newIdx }, sup,
             [.log "Displaying tab.", .sleep duration, .focusTab (newIdx + 1)])
      else
        (st, sup, [.log "In Off-Hours mode. Checking again in 60s.", .sleep 60])

/-- A raw call into the display-process supervisor: `kill_browser()` or
`launch_browser(urls)`, exactly as the module-level functions can be
called. -/
inductive SupCall
  | terminate
  | launch (urls : List String)
  deriving Repr, DecidableEq

/-- Effect of one raw supervisor call on the supervisor state. -/
def runSupCall (s : SupState) : SupCall → SupState
  | .terminate => kill_browser s
  | .launch urls => (launch_browser urls s).1

/-- Effect of a sequence of raw supervisor calls, first call first. -/
def runSupCalls (s : SupState) (calls : List SupCall) : SupState :=
  calls.foldl runSupCall s

/-- A supervisor interaction as `main_loop` actually performs it: the loop
always calls `kill_browser()` immediately before `launch_browser(urls)`. -/
inductive SchedCall
  | terminate
  | killThenLaunch (urls : List String)
  deriving Repr, DecidableEq

/-- Effect of one scheduler-style supervisor interaction. -/
def runSchedCall (s : SupState) : SchedCall → SupState
  | .terminate => kill_browser s
  | .killThenLaunch urls => (launch_browser urls (kill_browser s)).1

/-- Effect of a sequence of scheduler-style interactions, first one first. -/
def runSchedCalls (s : SupState) (calls : List SchedCall) : SupState :=
  calls.foldl runSchedCall s

/-- The three-entry rotation config of the spec's rotation example
(durations 5, 10 and 3 seconds). -/
def cW : Config :=
  { on_urls := [⟨"https://a", some 5⟩, ⟨"https://b", some 10⟩, ⟨"https://c", some 3⟩]
    off_hours_url := "https://off"
    on_hours_start := "08:00"
    on_hours_end := "18:00" }

/-- `cW` with a different `on_urls` content (a config edit while ON). -/
def cB : Config := { cW with on_urls := [⟨"https://b", some 10⟩] }

/-- `cW` with an empty `on_urls` list. -/
def cEmpty : Config := { cW with on_urls := [] }

/-- `cW` whose first entry has no `duration` field. -/
def cND : Config := { cW with on_urls := [⟨"https://nd", none⟩, ⟨"https://a", some 5⟩] }

/-- A supervisor state whose tracked tree (pid 0) is alive. -/
def supAlive : SupState := { tracked := some 0, live := [0], next := 1 }

/-- A supervisor state whose tracked tree (pid 0) has died. -/
def supDead : SupState := { tracked := some 0, live := [], next := 1 }

/-- Steady ON loop state for `cW`, active tab index 0. -/
def stOn0 : LoopState :=
  { last_mode := some Mode.ON, last_config := some cW
    current_url_list := cW.on_urls, current_tab_index := 0 }

/-- Steady ON loop state for `cW`, active tab index 1. -/
def stOn1 : LoopState := { stOn0 with current_tab_index := 1 }

/-- Steady ON loop state for `cW`, active tab index 2. -/
def stOn2 : LoopState := { stOn0 with current_tab_index := 2 }

/-- Steady ON loop state for `cND`, active tab index 0. -/
def stND : LoopState :=
  { last_mode := some Mode.ON, last_config := some cND
    current_url_list := cND.on_urls, current_tab_index := 0 }

/-- Steady OFF loop state for `cW`: the off-hours page is showing. -/
def stOffW : LoopState :=
  { last_mode := some Mode.OFF, last_config := some cW
    current_url_list := [⟨"https://off", some 3600⟩], current_tab_index := 0 }

/-- C1: for parseable boundary times with `start < end` the evaluator
returns true exactly when `start ≤ now < end` (start inclusive, end
exclusive); with `start > end` (overnight wrap) it returns true exactly
when `now ≥ start` or `now < end`. -/
theorem is_on_hours_window (s e : String) (a b now : Nat)
    (hs : parseTime s = some a) (he : parseTime e = some b) :
    (a < b → (is_on_hours now s e = true ↔ a ≤ now ∧ now < b)) ∧
    (b < a → (is_on_hours now s e = true ↔ now ≥ a ∨ now < b)) := by
  simp only [is_on_hours, hs, he]
  constructor
  · intro hab
    rw [if_pos (Nat.le_of_lt hab)]
    simp
  · intro hba
    rw [if_neg (Nat.not_le.mpr hba)]
    simp

/-- Witness for C1: the default window 08:00–18:00 is ON at 08:20, and an
overnight window 22:00–06:00 is ON at 23:00. -/
theorem is_on_hours_window_witness :
    is_on_hours 30000 "08:00" "18:00" = true ∧
    is_on_hours 82800 "22:00" "06:00" = true := by
  constructor
  · exact ((is_on_hours_window "08:00" "18:00" 28800 64800 30000 (by decide)
      (by decide)).1 (by decide)).mpr (by decide)
  · exact ((is_on_hours_window "22:00" "06:00" 79200 21600 82800 (by decide)
      (by decide)).2 (by decide)).mpr (by decide)

/-- C9: whenever at least one window boundary string is unparseable, the
evaluator returns `false` — the error is swallowed and the time is treated
as off-hours, so the loop never sees an exception from it. -/
theorem is_on_hours_parse_failure (s e : String) (now : Nat)
    (h : parseTime s = none ∨ parseTime e = none) :
    is_on_hours now s e = false := by
  rcases h with h | h
  · simp only [is_on_hours, h]
  · simp only [is_on_hours, h]
    cases parseTime s <;> rfl

/-- Witness for C9: "8h00" does not parse, so the evaluator yields
`false`. -/
theorem is_on_hours_parse_failure_witness :
    is_on_hours 30000 "8h00" "18:00" = false :=
  is_on_hours_parse_failure "8h00" "18:00" 30000 (Or.inl (by decide))

lemma runSchedCall_live_length_le (s : SupState) (c : SchedCall) :
    (runSchedCall s c).live.length ≤ 1 := by
  cases c with
  | terminate => simp [runSchedCall, kill_browser]
  | killThenLaunch urls =>
    by_cases h : urls = [] <;>
      simp [runSchedCall, launch_browser, kill_browser, h]

lemma runSchedCalls_live_length_le (s : SupState) (hs : s.live.length ≤ 1)
    (calls : List SchedCall) : (runSchedCalls s calls).live.length ≤ 1 := by
  induction calls generalizing s with
  | nil => exact hs
  | cons c cs ih =>
    simp only [runSchedCalls, List.foldl_cons]
    exact ih (runSchedCall s c) (runSchedCall_live_length_le s c)

/-- Counterexample to C2: `launch_browser` does not terminate anything
before spawning, so two consecutive raw launches from the clean initial
state leave two live Chromium trees, not one. -/
theorem launch_twice_leaves_two_trees :
    (runSupCalls initSup
      [.launch ["https://a"], .launch ["https://b"]]).live.length = 2 ∧
    ¬ (runSupCalls initSup
      [.launch ["https://a"], .launch ["https://b"]]).live.length ≤ 1 := by
  decide

/-- C2 (amended): `launch_browser` itself never pre-terminates; the
at-most-one-live-tree invariant holds for the call pattern the loop
actually uses — `kill_browser` immediately before every launch — after any
such sequence, and a kill-then-launch performed twice in a row leaves
exactly one live tree (the second interaction's kill removes the first
tree). -/
theorem at_most_one_tree_with_pre_kill :
    (∀ calls : List SchedCall,
      (runSchedCalls initSup calls).live.length ≤ 1) ∧
    (runSchedCalls initSup
      [.killThenLaunch ["https://a"],
       .killThenLaunch ["https://a"]]).live.length = 1 := by
  constructor
  · intro calls
    exact runSchedCalls_live_length_le initSup (by decide) calls
  · decide

lemma tick_steady_on (st : LoopState) (sup : SupState) (c : Config) (now : Nat)
    (entry : TabEntry)
    (hu : c.on_urls ≠ []) (ho : c.off_hours_url ≠ "")
    (hon : is_on_hours now c.on_hours_start c.on_hours_end = true)
    (hmode : st.last_mode = some Mode.ON)
    (hcfg : st.last_config = some c)
    (halive : browserAlive sup = true)
    (hentry : st.current_url_list.get? st.current_tab_index = some entry) :
    tick st sup (.ok c) now =
      ({ st with current_tab_index :=
          (st.current_tab_index + 1) % st.current_url_list.length },
       sup,
       [.log "Displaying tab.", .sleep (entry.duration.getD 15),
        .focusTab ((st.current_tab_index + 1) % st.current_url_list.length + 1)]) := by
  have hnil : st.current_url_list ≠ [] := by
    intro hn
    rw [hn] at hentry
    simp at hentry
  have hvalid : ¬ (c.on_urls = [] ∨ c.off_hours_url = "") := by
    push_neg
    exact ⟨hu, ho⟩
  have hentry2 : st.current_url_list[st.current_tab_index]? = some entry := by
    rw [← List.get?_eq_getElem?]
    exact hentry
  simp only [tick, read_config]
  rw [if_neg hvalid]
  simp [hon, hmode, hcfg, hnil, halive, hentry2]

/-- C4: in steady ON state with a live browser, the tick sleeps for the
current entry's duration and then advances the active tab index by one
modulo the list length (the focus signal targets the new, 1-indexed tab);
the witness below walks the spec's 3-entry example through indices
0, 1, 2 and back to 0. -/
theorem rotation_advances (st : LoopState) (sup : SupState) (c : Config)
    (now : Nat) (entry : TabEntry) (d : Nat)
    (hu : c.on_urls ≠ []) (ho : c.off_hours_url ≠ "")
    (hon : is_on_hours now c.on_hours_start c.on_hours_end = true)
    (hmode : st.last_mode = some Mode.ON)
    (hcfg : st.last_config = some c)
    (halive : browserAlive sup = true)
    (hentry : st.current_url_list.get? st.current_tab_index = some entry)
    (hd : entry.duration = some d) :
    tick st sup (.ok c) now =
      ({ st with current_tab_index :=
          (st.current_tab_index + 1) % st.current_url_list.length },
       sup,
       [.log "Displaying tab.", .sleep d,
        .focusTab ((st.current_tab_index + 1) % st.current_url_list.length + 1)]) := by
  rw [tick_steady_on st sup c now entry hu ho hon hmode hcfg halive hentry, hd]
  rfl

/-- Witness for C4: on the 3-entry list A/5 s, B/10 s, C/3 s the ticks
starting at index 0 sleep 5, 10 and 3 seconds and visit indices
0, 1, 2, then wrap back to 0. -/
theorem rotation_advances_witness :
    tick stOn0 supAlive (.ok cW) 30000 =
      (stOn1, supAlive, [.log "Displaying tab.", .sleep 5, .focusTab 2]) ∧
    tick stOn1 supAlive (.ok cW) 30000 =
      (stOn2, supAlive, [.log "Displaying tab.", .sleep 10, .focusTab 3]) ∧
    tick stOn2 supAlive (.ok cW) 30000 =
      (stOn0, supAlive, [.log "Displaying tab.", .sleep 3, .focusTab 1]) := by
  refine ⟨?_, ?_, ?_⟩
  · rw [rotation_advances stOn0 supAlive cW 30000 ⟨"https://a", some 5⟩ 5
      (by decide) (by decide) (by decide) (by decide) (by decide) (by decide)
      (by decide) rfl]
    decide
  · rw [rotation_advances stOn1 supAlive cW 30000 ⟨"https://b", some 10⟩ 10
      (by decide) (by decide) (by decide) (by decide) (by decide) (by decide)
      (by decide) rfl]
    decide
  · rw [rotation_advances stOn2 supAlive cW 30000 ⟨"https://c", some 3⟩ 3
      (by decide) (by decide) (by decide) (by decide) (by decide) (by decide)
      (by decide) rfl]
    decide

/-- C10: a tab entry with no `duration` field does not fail the steady ON
tick; the tick dwells the default 15 seconds on it and advances as
usual. -/
theorem missing_duration_default (st : LoopState) (sup : SupState)
    (c : Config) (now : Nat) (entry : TabEntry)
    (hu : c.on_urls ≠ []) (ho : c.off_hours_url ≠ "")
    (hon : is_on_hours now c.on_hours_start c.on_hours_end = true)
    (hmode : st.last_mode = some Mode.ON)
    (hcfg : st.last_config = some c)
    (halive : browserAlive sup = true)
    (hentry : st.current_url_list.get? st.current_tab_index = some entry)
    (hd : entry.duration = none) :
    tick st sup (.ok c) now =
      ({ st with current_tab_index :=
          (st.current_tab_index + 1) % st.current_url_list.length },
       sup,
       [.log "Displaying tab.", .sleep 15,
        .focusTab ((st.current_tab_index + 1) % st.current_url_list.length + 1)]) := by
  rw [tick_steady_on st sup c now entry hu ho hon hmode hcfg halive hentry, hd]
  rfl

/-- Witness for C10: the duration-less first entry of `cND` is shown for
the default 15 seconds and the index advances to 1. -/
theorem missing_duration_default_witness :
    tick stND supAlive (.ok cND) 30000 =
      ({ stND with current_tab_index := 1 }, supAlive,
       [.log "Displaying tab.", .sleep 15, .focusTab 2]) := by
  rw [missing_duration_default stND supAlive cND 30000 ⟨"https://nd", none⟩
    (by decide) (by decide) (by decide) (by decide) (by decide) (by decide)
    (by decide) rfl]
  decide

/-- C3: if `on_urls` content changed since the previous tick while the mode
stays ON, the tick takes the relaunch path: it kills the running browser,
launches the new URL list and resets the active tab index to 0, even
though the mode itself did not change. -/
theorem config_change_relaunch (st : LoopState) (sup : SupState) (c : Config)
    (now : Nat)
    (hu : c.on_urls ≠ []) (ho : c.off_hours_url ≠ "")
    (hon : is_on_hours now c.on_hours_start c.on_hours_end = true)
    (hmode : st.last_mode = some Mode.ON)
    (hchanged : st.last_config ≠ some c) :
    tick st sup (.ok c) now =
      ({ last_mode := some Mode.ON, last_config := some c,
         current_url_list := c.on_urls, current_tab_index := 0 },
       { tracked := some sup.next, live := [sup.next], next := sup.next + 1 },
       [.log "Mode change detected.", .kill, .log "Launching Chromium.",
        .spawn (c.on_urls.map TabEntry.url), .sleep 10, .focusTab 1]) := by
  have hvalid : ¬ (c.on_urls = [] ∨ c.off_hours_url = "") := by
    push_neg
    exact ⟨hu, ho⟩
  have hmap : c.on_urls.map TabEntry.url ≠ [] := by
    simpa using hu
  have hc2 : (some c = st.last_config) = False :=
    eq_false (fun h => hchanged h.symm)
  simp only [tick, read_config]
  rw [if_neg hvalid]
  simp [hon, hc2, launch_browser, kill_browser, hmap]

/-- Witness for C3: with the window still ON, editing `on_urls` from `cW`
to `cB` makes the next tick kill, relaunch with `cB`'s URLs and reset the
tab index from 1 to 0. -/
theorem config_change_relaunch_witness :
    tick stOn1 supAlive (.ok cB) 30000 =
      ({ last_mode := some Mode.ON, last_config := some cB,
         current_url_list := cB.on_urls, current_tab_index := 0 },
       { tracked := some 1, live := [1], next := 2 },
       [.log "Mode change detected.", .kill, .log "Launching Chromium.",
        .spawn ["https://b"], .sleep 10, .focusTab 1]) := by
  rw [config_change_relaunch stOn1 supAlive cB 30000 (by decide) (by decide)
    (by decide) (by decide) (by decide)]
  decide

/-- C5 (amended): a dead display process is detected only in the steady ON
branch — there the tick clears `last_mode` (forcing the full relaunch path
on the next tick) and sleeps 5 s without launching anything; in steady OFF
the liveness of the display process is never checked and the tick just
sleeps 60 s, leaving the dead process dead. -/
theorem dead_process_detection (st : LoopState) (sup : SupState) (c : Config)
    (now : Nat)
    (hu : c.on_urls ≠ []) (ho : c.off_hours_url ≠ "")
    (hcfg : st.last_config = some c)
    (hdead : browserAlive sup = false) :
    (is_on_hours now c.on_hours_start c.on_hours_end = true →
      st.last_mode = some Mode.ON →
      st.current_url_list ≠ [] →
      tick st sup (.ok c) now =
        ({ st with last_mode := none }, sup,
         [.log "Browser process not running. Forcing restart.", .sleep 5])) ∧
    (is_on_hours now c.on_hours_start c.on_hours_end = false →
      st.last_mode = some Mode.OFF →
      tick st sup (.ok c) now =
        (st, sup, [.log "In Off-Hours mode. Checking again in 60s.",
                   .sleep 60])) := by
  have hvalid : ¬ (c.on_urls = [] ∨ c.off_hours_url = "") := by
    push_neg
    exact ⟨hu, ho⟩
  constructor
  · intro hon hmode hnil
    simp only [tick, read_config]
    rw [if_neg hvalid]
    simp [hon, hmode, hcfg, hnil, hdead]
  · intro hoff hmode
    simp only [tick, read_config]
    rw [if_neg hvalid]
    simp [hoff, hmode, hcfg]

/-- Witness for C5 (amended): with the tracked process dead, the ON tick
at index 0 forces a restart by clearing `last_mode`, while the OFF tick
only sleeps 60 s. -/
theorem dead_process_detection_witness :
    tick stOn0 supDead (.ok cW) 30000 =
      ({ stOn0 with last_mode := none }, supDead,
       [.log "Browser process not running. Forcing restart.", .sleep 5]) ∧
    tick stOffW supDead (.ok cW) 0 =
      (stOffW, supDead,
       [.log "In Off-Hours mode. Checking again in 60s.", .sleep 60]) := by
  constructor
  · exact (dead_process_detection stOn0 supDead cW 30000 (by decide) (by decide)
      (by decide) (by decide)).1 (by decide) (by decide) (by decide)
  · exact (dead_process_detection stOffW supDead cW 0 (by decide) (by decide)
      (by decide) (by decide)).2 (by decide) (by decide)

/-- Counterexample to C5: in steady OFF state with the tracked display
process dead, the tick does not relaunch — no kill, no spawn, the dead
supervisor state survives unchanged and the loop merely sleeps 60 s. -/
theorem off_dead_not_relaunched :
    browserAlive supDead = false ∧
    tick stOffW supDead (.ok cW) 0 =
      (stOffW, supDead,
       [.log "In Off-Hours mode. Checking again in 60s.", .sleep 60]) ∧
    (tick stOffW supDead (.ok cW) 0).2.1.live = [] := by
  decide

/-- Counterexample to C6: an unreadable config file backs off 30 seconds,
not 60; and an absent config file does not back off at all — the tick
substitutes built-in defaults and goes on to spawn the browser. -/
theorem config_error_backoff_counterexample :
    (tick initLoop initSup .unreadable 0).2.2 =
      [.log "Config is invalid or missing keys. Retrying in 30s.", .sleep 30] ∧
    Act.spawn ["https://google.com"] ∈ (tick initLoop initSup .missing 30000).2.2 := by
  decide

/-- C6 (amended): a tick whose config file is unreadable logs and waits a
fixed 30-second backoff, leaving the loop state, the mode and the display
process untouched; an absent config file instead yields the built-in
default record, and the tick proceeds exactly as if that default had been
read from disk. -/
theorem unreadable_config_backoff (st : LoopState) (sup : SupState)
    (now : Nat) :
    tick st sup .unreadable now =
      (st, sup,
       [.log "Config is invalid or missing keys. Retrying in 30s.", .sleep 30]) ∧
    read_config .missing = defaultConfig ∧
    tick st sup .missing now = tick st sup (.ok defaultConfig) now := by
  refine ⟨?_, rfl, rfl⟩
  simp [tick, read_config, emptyConfig]

/-- Counterexample to C7: with `on_urls` empty and the window ON, the loop
retries after 30 seconds, not 60, and an already-running display process
(pid 0) is left running. -/
theorem empty_on_urls_counterexample :
    is_on_hours 30000 cEmpty.on_hours_start cEmpty.on_hours_end = true ∧
    browserAlive supAlive = true ∧
    tick stOffW supAlive (.ok cEmpty) 30000 =
      (stOffW, supAlive,
       [.log "Config is invalid or missing keys. Retrying in 30s.", .sleep 30]) ∧
    (tick stOffW supAlive (.ok cEmpty) 30000).2.1.live = [0] := by
  decide

/-- C7 (amended): a config with empty `on_urls` is caught by the validity
check before anything else: no launch occurs, the loop logs and retries
after 30 seconds, and a display process that is already running is left
running (the branch neither kills nor spawns). -/
theorem empty_on_urls_no_launch (st : LoopState) (sup : SupState) (c : Config)
    (now : Nat) (h : c.on_urls = []) :
    tick st sup (.ok c) now =
      (st, sup,
       [.log "Config is invalid or missing keys. Retrying in 30s.", .sleep 30]) := by
  simp [tick, read_config, h]

/-- Witness for C7 (amended): the empty-list config reaches the 30-second
retry branch with the running browser untouched. -/
theorem empty_on_urls_no_launch_witness :
    tick stOffW supAlive (.ok cEmpty) 30000 =
      (stOffW, supAlive,
       [.log "Config is invalid or missing keys. Retrying in 30s.", .sleep 30]) :=
  empty_on_urls_no_launch stOffW supAlive cEmpty 30000 (by decide)

lemma no_reload_in_launch (u : List String) (s : SupState) :
    Act.reload ∉ (launch_browser u s).2 := by
  by_cases h : u = [] <;> simp [launch_browser, h]

lemma no_dismiss_in_launch (u : List String) (s : SupState) :
    Act.dismissPopup ∉ (launch_browser u s).2 := by
  by_cases h : u = [] <;> simp [launch_browser, h]

/-- Counterexample to C8: a steady ON tick that re-visits a tab arbitrarily
long after any earlier visit emits no reload and no popup-dismiss signal
(and the loop state has no per-URL maintenance stamp that could make it
do so). -/
theorem maintenance_reload_counterexample :
    Act.reload ∉ (tick stOn0 supAlive (.ok cW) 30000).2.2 ∧
    Act.dismissPopup ∉ (tick stOn0 supAlive (.ok cW) 30000).2.2 := by
  decide

/-- C8 (amended): the control script performs no per-tab maintenance at
all — no tick, from any state and any config-read outcome, ever emits a
reload or a popup-dismiss signal. -/
theorem no_maintenance_signals (st : LoopState) (sup : SupState)
    (r : ReadResult) (now : Nat) :
    Act.reload ∉ (tick st sup r now).2.2 ∧
    Act.dismissPopup ∉ (tick st sup r now).2.2 := by
  constructor <;>
  · simp only [tick]
    repeat' split
    all_goals simp [no_reload_in_launch, no_dismiss_in_launch]
